import Mathlib

/-
Verification development for the leave-migration service
(internal/service.go, internal/xero/model.go of migrate-leaves-to-xero).

Shallow-embedding conventions, applied uniformly:
  * float64 values (hours, leave balances) are modelled as exact rationals;
    the code only adds, subtracts, negates, compares and takes absolute
    values, so no floating point rounding is claim-relevant.
  * Go errors are modelled as their message strings; a fallible call returns
    an Except value.
  * time.Time values are modelled by the formatted strings the service
    derives from them; formatting is treated as the identity on that string.
  * Go maps are modelled as association lists where an insert conses to the
    front, so a lookup (List.lookup, first match) sees the latest write.
  * The xero HTTP client sits behind ClientInterface; it is modelled as a
    record of response functions (XeroEnv).
  * Goroutine dispatch plus the result channel are modelled by collecting
    dispatched submissions in order and draining their outcomes after the
    row loop, which preserves the multiset of result lines.
  * The unbounded page recursion of populateEmployeesMap is modelled with a
    fuel parameter; exhausted fuel is a distinguished outcome that the
    driver propagates as an absent overall result, as is the index-out-of-
    range panic of reconcileLeaveRequestAndApply.
  * The rate-limit bookkeeping (minRateLimit, time.Sleep) only delays
    execution and is not modelled.
-/

namespace Krow

/-- Absolute value exactly as math.Abs behaves on the exact rationals used
here (defined directly so that it evaluates by kernel reduction). -/
def qAbs (x : ℚ) : ℚ := if x < 0 then -x else x

/-- ASCII lowering of one character, the case folding relevant to every
string this service compares (strings.EqualFold). -/
def charToLower (c : Char) : Char :=
  if 65 ≤ c.toNat && c.toNat ≤ 90 then Char.ofNat (c.toNat + 32) else c

/-- Model of strings.EqualFold restricted to the ASCII strings the service
compares: equality after lowering every character. -/
def eqFold (a b : String) : Bool :=
  a.data.map charToLower == b.data.map charToLower

/-- Boolean substring test on character lists, modelling strings.Contains. -/
def listInfixOf (p : List Char) : List Char → Bool
  | [] => p.isEmpty
  | c :: rest => List.isPrefixOf p (c :: rest) || listInfixOf p rest

/-- Model of strings.Contains s sub. -/
def strContains (s sub : String) : Bool := listInfixOf sub.data s.data

/-- Map write with last-write-wins semantics (a Go map assignment). -/
def mapInsert {β : Type} (m : List (String × β)) (k : String) (v : β) :
    List (String × β) := (k, v) :: m

/-- Map read: the latest write to the key, if any (a Go map lookup). -/
def mapFind? {β : Type} (m : List (String × β)) (k : String) : Option β :=
  m.lookup k

/-- Model of the containsError helper of service.go: does the text of some
already collected error contain errStr as a substring. -/
def containsError (errs : List String) (errStr : String) : Bool :=
  errs.any (fun s => strContains s errStr)

/-- Model of the containsString helper of service.go. -/
def containsString (s : List String) (e : String) : Bool :=
  s.any (fun a => a == e)

/-- Apostrophe character, kept out of source literals. -/
def apChar : Char := Char.ofNat 39

def unPaidLeave : String := "Other Unpaid Leave"

def compassionateLeave : String := "Compassionate Leave (paid)"

def juryDutyLeave : String := "Jury Duty"

/-- The constant personalLeave of service.go; its apostrophe is spliced in
as a character code. -/
def personalLeave : String :=
  "Personal/Carer" ++ String.singleton apChar ++ "s Leave"

def annualLeave : String := "Annual Leave"

def annualLeaveNegativeLimit : ℚ := -40

def personalLeaveNegativeLimit : ℚ := -16

/-- LeaveBalance of internal/xero (one entry of the employee balance). -/
structure LeaveBalance where
  leaveType : String
  leaveTypeID : String
  numberOfUnits : ℚ
  typeOfUnits : String
deriving DecidableEq

/-- Employee of internal/xero. -/
structure Employee where
  employeeID : String
  firstName : String
  lastName : String
  status : String
  payrollCalendarID : String
  leaveBalance : List LeaveBalance
deriving DecidableEq

/-- Connection of internal/xero. -/
structure Connection where
  tenantID : String
  tenantType : String
  orgName : String
deriving DecidableEq

/-- EmpResponse of internal/xero (one employees page). -/
structure EmpResponse where
  status : String
  employees : List Employee
  rateLimitRemaining : Int
deriving DecidableEq

/-- LeaveBalanceResponse of internal/xero. -/
structure LeaveBalanceResponse where
  employees : List Employee
  rateLimitRemaining : Int
deriving DecidableEq

/-- PayrollCalendar of internal/xero. -/
structure PayrollCalendar where
  payrollCalendarID : String
  calendarType : String
  paymentDate : String
deriving DecidableEq

/-- PayrollCalendarResponse of internal/xero. -/
structure PayrollCalendarResponse where
  payrollCalendars : List PayrollCalendar
deriving DecidableEq

/-- LeavePeriod of internal/xero. -/
structure LeavePeriod where
  payPeriodEndDate : String
  numberOfUnits : ℚ
deriving DecidableEq

/-- LeaveApplicationRequest of internal/xero. -/
structure LeaveApplicationRequest where
  employeeID : String
  leaveTypeID : String
  startDate : String
  endDate : String
  title : String
  leavePeriods : List LeavePeriod
deriving DecidableEq

/-- KrowLeaveRequest of internal/model: one parsed spreadsheet row. The
time.Time field is carried as its formatted string. -/
structure KrowLeaveRequest where
  leaveDate : String
  leaveDateEpoch : Int
  hours : ℚ
  leaveType : String
  orgName : String
  empName : String
  description : String
deriving DecidableEq

/-- EmpLeaveRequest of service.go: one submission handed to applyLeave. -/
structure EmpLeaveRequest where
  empID : String
  empName : String
  tenantID : String
  leaveTypeID : String
  leaveUnits : ℚ
  paymentDate : String
  leaveStartDate : String
  leaveEndDate : String
  leaveType : String
  leaveDate : String
  originalLeaveType : String
  orgName : String
  description : String
deriving DecidableEq

/-- The xero ClientInterface as consumed by the service, determinised as a
record of response functions; getEmployees takes the page number. -/
structure XeroEnv where
  getConnections : Except String (List Connection)
  getEmployees : String → Nat → Except String EmpResponse
  newPayrollRequest : String → Except String Unit
  getPayrollCalendars : String → Except String PayrollCalendarResponse
  employeeLeaveBalance : String → String → Except String LeaveBalanceResponse
  employeeLeaveApplication : String → LeaveApplicationRequest → Except String Unit

def errConnections (err : String) : String :=
  "Failed to fetch connections from Xero: " ++ err ++
    ". Please try again later or contact admin. "

def errOrgNotFound (org : String) : String :=
  "Failed to get Organization details from Xero. Organization: " ++ org ++ ". "

def errFetchEmployees (org : String) : String :=
  "Failed to fetch employees from Xero. Organization: " ++ org ++ ". "

def errNewPayrollRequest (cause : String) : String :=
  "failed to build NewPayrollRequest. Cause " ++ cause

def errFetchPayrollCalendar (org : String) : String :=
  "Failed to fetch employee payroll calendar settings from Xero. Organization: "
    ++ org ++ ". Please reupload entry for this ORG. "

def errEmpNotFound (emp org : String) : String :=
  "Employee not found in Xero. Employee: " ++ emp ++ ". Organization: " ++
    org ++ "  "

def errEmpCalendarNotFound (emp org : String) : String :=
  "Failed to fetch employee payroll calendar settings from Xero. Employee: "
    ++ emp ++ ". Organization: " ++ org ++ " "

def errFetchLeaveBalance (emp org : String) : String :=
  "Failed to fetch employee leave balance from Xero. Employee: " ++ emp ++
    ". Organization: " ++ org ++ " "

def errLeaveTypeNotFound (lt emp org : String) : String :=
  "Leave type " ++ lt ++ " not found/configured in Xero for Employee: " ++
    emp ++ ". Organization: " ++ org ++ " "

def errInsufficientBalance (emp lt : String) (units : ℚ) : String :=
  "Employee: " ++ emp ++ " has insufficient Leave balance for Leave type " ++
    lt ++ " requested for " ++ toString units ++ " hours "

def errPostLeave (emp org : String) : String :=
  "Error: Failed to post Leave application to xero for Employee: " ++ emp ++
    " Organization: " ++ org ++ " "

/-- Success line pushed to the result channel by applyLeaveRequestToXero. -/
def successLine (emp origType appliedType date : String) (units : ℚ)
    (org : String) : String :=
  emp ++ "," ++ origType ++ "," ++ appliedType ++ "," ++ date ++ "," ++
    toString units ++ "," ++ org

/-- The skipUnpaidLeave test of reconcileLeaveRequestAndApply (service.go
line 278): leave types that never fall back to unpaid leave. -/
def skipUnpaid (lt : String) : Bool :=
  eqFold lt compassionateLeave || eqFold lt juryDutyLeave

/-- The negative-headroom transform of reconcileLeaveRequestAndApply
(service.go lines 311 to 327): leave types Annual Leave and
Personal/Carer leave, matched case-insensitively, remap the raw balance;
every other leave type keeps the raw balance. -/
def effectiveAvailable (leaveType : String) (raw : ℚ) : ℚ :=
  if eqFold leaveType annualLeave || eqFold leaveType personalLeave then
    let negativeLeaveLimit :=
      if eqFold leaveType personalLeave then personalLeaveNegativeLimit
      else annualLeaveNegativeLimit
    if raw < negativeLeaveLimit then 0
    else if 0 < raw then qAbs negativeLeaveLimit + raw
    else qAbs (negativeLeaveLimit - raw)
  else raw

/-- The paid/unpaid split of reconcileLeaveRequestAndApply (service.go
lines 328 to 339), as (paidLeaveUnits, unpaidLeaveUnits). -/
def leaveSplit (leaveReqUnit availableLeaveBalUnit : ℚ) : ℚ × ℚ :=
  if availableLeaveBalUnit ≤ leaveReqUnit then
    if 0 < availableLeaveBalUnit then
      (availableLeaveBalUnit, leaveReqUnit - availableLeaveBalUnit)
    else (0, leaveReqUnit)
  else (leaveReqUnit, 0)

/-- Outcome of reconcileLeaveRequestAndApply: either the unguarded
Employees[0] access paniced, or a list of dispatched submissions together
with the message of the returned error (empty for the empty
errors.New of the success path). -/
inductive ReconcileResult where
  | indexOutOfRange : ReconcileResult
  | result : List EmpLeaveRequest → String → ReconcileResult
deriving DecidableEq

/-- The leave-balance map built by reconcileLeaveRequestAndApply from the
first employee of the balance response (keyed by exact leave type name). -/
def leaveBalanceMapOf (emp : Employee) : List (String × LeaveBalance) :=
  emp.leaveBalance.foldl (fun m b => mapInsert m b.leaveType b) []

/-- The unPaidLeaveTypeID assignment loop of reconcileLeaveRequestAndApply:
the id of the last balance entry whose name case-insensitively equals
Other Unpaid Leave, or the empty string. -/
def unPaidLeaveTypeIdOf (emp : Employee) : String :=
  emp.leaveBalance.foldl
    (fun acc b => if eqFold b.leaveType unPaidLeave then b.leaveTypeID else acc)
    ""

/-- The paid-portion submission built by reconcileLeaveRequestAndApply. -/
def mkPaidSubmission (empID tenantID : String) (leaveReq : KrowLeaveRequest)
    (paymentDate leaveTypeID : String) (units : ℚ) : EmpLeaveRequest :=
  { empID := empID
    empName := leaveReq.empName
    tenantID := tenantID
    leaveTypeID := leaveTypeID
    leaveUnits := units
    paymentDate := paymentDate
    leaveStartDate := "/Date(" ++ toString leaveReq.leaveDateEpoch ++ ")/"
    leaveEndDate := "/Date(" ++ toString leaveReq.leaveDateEpoch ++ ")/"
    leaveType := leaveReq.leaveType
    leaveDate := leaveReq.leaveDate
    originalLeaveType := leaveReq.leaveType
    orgName := leaveReq.orgName
    description := leaveReq.description }

/-- The unpaid-portion submission built by reconcileLeaveRequestAndApply;
its leave type is the Other Unpaid Leave constant and its type id is the
one harvested from the balance map. -/
def mkUnpaidSubmission (empID tenantID : String) (leaveReq : KrowLeaveRequest)
    (paymentDate unPaidLeaveTypeID : String) (units : ℚ) : EmpLeaveRequest :=
  { empID := empID
    empName := leaveReq.empName
    tenantID := tenantID
    leaveTypeID := unPaidLeaveTypeID
    leaveUnits := units
    paymentDate := paymentDate
    leaveStartDate := "/Date(" ++ toString leaveReq.leaveDateEpoch ++ ")/"
    leaveEndDate := "/Date(" ++ toString leaveReq.leaveDateEpoch ++ ")/"
    leaveType := unPaidLeave
    leaveDate := leaveReq.leaveDate
    originalLeaveType := leaveReq.leaveType
    orgName := leaveReq.orgName
    description := leaveReq.description }

/-- Model of reconcileLeaveRequestAndApply (service.go lines 262 to 389).
Submissions dispatched through applyLeave are returned as data in dispatch
order; the returned String is the message of the error value the function
returns (the join of errorsStr, or the early error messages). -/
def reconcileLeaveRequestAndApply (env : XeroEnv) (empID tenantID : String)
    (leaveReq : KrowLeaveRequest) (paymentDate : String) : ReconcileResult :=
  let skipUnpaidLeave := skipUnpaid leaveReq.leaveType
  match env.employeeLeaveBalance tenantID empID with
  | .error _ =>
    .result [] (errFetchLeaveBalance leaveReq.empName leaveReq.orgName)
  | .ok leaveBalance =>
    match leaveBalance.employees with
    | [] => .indexOutOfRange
    | emp0 :: _ =>
      let leaveBalanceMap := leaveBalanceMapOf emp0
      let unPaidLeaveTypeID := unPaidLeaveTypeIdOf emp0
      match mapFind? leaveBalanceMap leaveReq.leaveType with
      | none =>
        .result []
          (errLeaveTypeNotFound leaveReq.leaveType leaveReq.empName
            leaveReq.orgName)
      | some lb =>
        let availableLeaveBalUnit :=
          effectiveAvailable leaveReq.leaveType lb.numberOfUnits
        let pu := leaveSplit leaveReq.hours availableLeaveBalUnit
        let paidLeaveUnits := pu.1
        let unpaidLeaveUnits := pu.2
        let subs :=
          (if 0 < paidLeaveUnits then
            [mkPaidSubmission empID tenantID leaveReq paymentDate
              lb.leaveTypeID paidLeaveUnits]
          else []) ++
          (if 0 < unpaidLeaveUnits && !skipUnpaidLeave then
            [mkUnpaidSubmission empID tenantID leaveReq paymentDate
              unPaidLeaveTypeID unpaidLeaveUnits]
          else [])
        let errorsStr :=
          if 0 < unpaidLeaveUnits && skipUnpaidLeave then
            [errInsufficientBalance leaveReq.empName leaveReq.leaveType
              unpaidLeaveUnits]
          else []
        .result subs (String.intercalate ("\n") errorsStr)

/-- Model of processLeaveRequestByEmp (service.go lines 238 to 260). -/
def processLeaveRequestByEmp (env : XeroEnv)
    (xeroEmployeesMap : List (String × Employee))
    (leaveReq : KrowLeaveRequest) (tenantID : String)
    (payrollCalendarMap : List (String × String)) : ReconcileResult :=
  match mapFind? xeroEmployeesMap leaveReq.empName with
  | none => .result [] (errEmpNotFound leaveReq.empName leaveReq.orgName)
  | some emp =>
    match mapFind? payrollCalendarMap emp.payrollCalendarID with
    | none =>
      .result [] (errEmpCalendarNotFound leaveReq.empName leaveReq.orgName)
    | some paymentDate =>
      reconcileLeaveRequestAndApply env emp.employeeID tenantID leaveReq
        paymentDate

/-- Outcome of one populateEmployeesMap fill: the merged map, or the error
slice of a failed page fetch (the Go function then returns its fresh empty
map to the caller), or exhausted fuel standing for unbounded recursion. -/
inductive PopulateResult where
  | ok : List (String × Employee) → PopulateResult
  | fail : List String → PopulateResult
  | outOfFuel : PopulateResult
deriving DecidableEq

/-- Model of populateEmployeesMap (service.go lines 197 to 227), paired
with the list of (tenantID, page) GetEmployees calls it performs. A page
of more than 99 employees recurses to the next page; a failed fetch
returns the single fetch error and discards the merged map. -/
def populateEmployeesMap (env : XeroEnv)
    (xeroEmployeesMap : List (String × Employee)) (tenantID orgName : String)
    (page : Nat) : Nat → List (String × Nat) × PopulateResult
  | 0 => ([], .outOfFuel)
  | fuel + 1 =>
    match env.getEmployees tenantID page with
    | .error _ => ([(tenantID, page)], .fail [errFetchEmployees orgName])
    | .ok empResponse =>
      let merged := empResponse.employees.foldl
        (fun m emp => mapInsert m (emp.firstName ++ " " ++ emp.lastName) emp)
        xeroEmployeesMap
      if 99 < empResponse.employees.length then
        let inner := populateEmployeesMap env merged tenantID orgName
          (page + 1) fuel
        ((tenantID, page) :: inner.1, inner.2)
      else ([(tenantID, page)], .ok merged)

/-- Mutable state of the row loop of MigrateLeaveKrowToXero, plus the ghost
trace empFetchCalls of every GetEmployees call made so far. -/
structure RunState where
  xeroEmployeesMap : List (String × Employee)
  payrollCalendarMap : List (String × String)
  orgEmpCacheList : List String
  payrollCalCacheList : List String
  errResult : List String
  errStrings : List String
  submissions : List EmpLeaveRequest
  empFetchCalls : List (String × Nat)
deriving DecidableEq

/-- The employee-cache step of the row loop (service.go lines 129 to 137):
the updated state plus a flag that is false when the row is abandoned with
continue; an absent result is exhausted fuel. On a failed fill the map is
replaced by the empty map returned by populateEmployeesMap and errResult
is overwritten by the error slice. -/
def fillEmpCache (env : XeroEnv) (fuel : Nat) (st : RunState)
    (tenantID orgName : String) : Option (RunState × Bool) :=
  if containsString st.orgEmpCacheList orgName then some (st, true)
  else
    match populateEmployeesMap env st.xeroEmployeesMap tenantID orgName 1 fuel with
    | (_, .outOfFuel) => none
    | (calls, .fail errs) =>
      some ({ st with
        xeroEmployeesMap := []
        errResult := errs
        empFetchCalls := st.empFetchCalls ++ calls }, false)
    | (calls, .ok m) =>
      some ({ st with
        xeroEmployeesMap := m
        orgEmpCacheList := st.orgEmpCacheList ++ [orgName]
        empFetchCalls := st.empFetchCalls ++ calls }, true)

/-- The payroll-calendar cache step of the row loop (service.go lines 139
to 162): the updated state plus a flag that is false when the row is
abandoned with continue. -/
def fillCalCache (env : XeroEnv) (st : RunState) (tenantID orgName : String) :
    RunState × Bool :=
  if containsString st.payrollCalCacheList tenantID then (st, true)
  else
    match env.newPayrollRequest tenantID with
    | .error e =>
      ({ st with errStrings := st.errStrings ++ [errNewPayrollRequest e] },
        false)
    | .ok _ =>
      match env.getPayrollCalendars tenantID with
      | .error _ =>
        ({ st with
          errStrings := st.errStrings ++ [errFetchPayrollCalendar orgName] },
          false)
      | .ok resp =>
        ({ st with
          payrollCalendarMap := resp.payrollCalendars.foldl
            (fun m p => mapInsert m p.payrollCalendarID p.paymentDate)
            st.payrollCalendarMap
          payrollCalCacheList := st.payrollCalCacheList ++ [tenantID] }, true)

/-- One iteration of the row loop of MigrateLeaveKrowToXero (service.go
lines 113 to 170) for one leave request; an absent result is a panic or
exhausted fuel. An error returned by processLeaveRequestByEmp is recorded
only when containsError does not already find it as a substring of a
collected error. -/
def processRow (env : XeroEnv) (connectionsMap : List (String × String))
    (fuel : Nat) (st : RunState) (leaveReq : KrowLeaveRequest) :
    Option RunState :=
  match mapFind? connectionsMap leaveReq.orgName with
  | none =>
    some { st with
      errStrings := st.errStrings ++ [errOrgNotFound leaveReq.orgName] }
  | some tenantID =>
    match fillEmpCache env fuel st tenantID leaveReq.orgName with
    | none => none
    | some (st1, false) => some st1
    | some (st1, true) =>
      match fillCalCache env st1 tenantID leaveReq.orgName with
      | (st2, false) => some st2
      | (st2, true) =>
        match processLeaveRequestByEmp env st2.xeroEmployeesMap leaveReq
            tenantID st2.payrollCalendarMap with
        | .indexOutOfRange => none
        | .result subs errMsg =>
          let es :=
            if containsError st2.errStrings errMsg then st2.errStrings
            else st2.errStrings ++ [errMsg]
          some { st2 with
            errStrings := es
            submissions := st2.submissions ++ subs }

/-- The row loop of MigrateLeaveKrowToXero over all leave requests. -/
def runRows (env : XeroEnv) (connectionsMap : List (String × String))
    (fuel : Nat) : RunState → List KrowLeaveRequest → Option RunState
  | st, [] => some st
  | st, req :: rest =>
    match processRow env connectionsMap fuel st req with
    | none => none
    | some st1 => runRows env connectionsMap fuel st1 rest

/-- The LeaveApplicationRequest built by applyLeave (service.go lines 391
to 414), including the default description. -/
def buildLeaveApplication (sub : EmpLeaveRequest) : LeaveApplicationRequest :=
  let description :=
    if sub.description == "" then sub.leaveType ++ " " ++ sub.leaveDate
    else sub.description
  { employeeID := sub.empID
    leaveTypeID := sub.leaveTypeID
    startDate := sub.leaveStartDate
    endDate := sub.leaveEndDate
    title := description
    leavePeriods := [⟨sub.paymentDate, sub.leaveUnits⟩] }

/-- The result line one dispatched submission delivers to the result
channel (applyLeaveRequestToXero, service.go lines 416 to 434). -/
def submissionResultLine (env : XeroEnv) (sub : EmpLeaveRequest) : String :=
  let leaveApplication := buildLeaveApplication sub
  match env.employeeLeaveApplication sub.tenantID leaveApplication with
  | .error _ => errPostLeave sub.empName sub.orgName
  | .ok _ =>
    successLine sub.empName sub.originalLeaveType sub.leaveType sub.leaveDate
      sub.leaveUnits sub.orgName

/-- Observable outcome of one run: the final error partition, the success
partition, the value returned to the caller (none models the nil return),
whether sendStatusReport was triggered, and the ghost GetEmployees call
trace. -/
structure RunOutcome where
  errResult : List String
  successResult : List String
  returned : Option (List String)
  emailSent : Bool
  empFetchCalls : List (String × Nat)
deriving DecidableEq

/-- Initial loop state; errResult starts as the extraction errors. -/
def initState (extractErrs : List String) : RunState :=
  { xeroEmployeesMap := []
    payrollCalendarMap := []
    orgEmpCacheList := []
    payrollCalCacheList := []
    errResult := extractErrs
    errStrings := []
    submissions := []
    empFetchCalls := [] }

/-- Model of MigrateLeaveKrowToXero (service.go lines 72 to 195). The
spreadsheet extraction is an external collaborator, so the parsed rows and
the extraction error slice are inputs. An absent result models a panic or
unbounded pagination. Result-channel lines are drained in dispatch order,
errors being the lines containing the Error: marker; sendStatusReport runs
on every return path. -/
def MigrateLeaveKrowToXero (env : XeroEnv)
    (leaveRequests : List KrowLeaveRequest) (extractErrs : List String)
    (fuel : Nat) : Option RunOutcome :=
  if leaveRequests.isEmpty then
    some { errResult := extractErrs
           successResult := []
           returned := if extractErrs.isEmpty then none else some extractErrs
           emailSent := true
           empFetchCalls := [] }
  else
    match env.getConnections with
    | .error e =>
      let er := extractErrs ++ [errConnections e]
      some { errResult := er
             successResult := []
             returned := some er
             emailSent := true
             empFetchCalls := [] }
    | .ok resp =>
      let connectionsMap :=
        resp.foldl (fun m c => mapInsert m c.orgName c.tenantID) []
      match runRows env connectionsMap fuel (initState extractErrs)
          leaveRequests with
      | none => none
      | some st =>
        let afterErrStrings :=
          st.errResult ++ st.errStrings.filter (fun e => !(e == ""))
        let lines := st.submissions.map (submissionResultLine env)
        let finalErr :=
          afterErrStrings ++ lines.filter (fun l => strContains l ("Error:"))
        some { errResult := finalErr
               successResult := lines.filter (fun l => !(strContains l ("Error:")))
               returned := if finalErr.isEmpty then none else some finalErr
               emailSent := true
               empFetchCalls := st.empFetchCalls }

/-- The paid/unpaid pair a row receives from its matched balance entry: the
split of the requested hours against the effective available units. -/
def splitOf (leaveReq : KrowLeaveRequest) (lb : LeaveBalance) : ℚ × ℚ :=
  leaveSplit leaveReq.hours
    (effectiveAvailable leaveReq.leaveType lb.numberOfUnits)

/-- Environment whose every call fails, for concrete scenarios. -/
def errEnv : XeroEnv :=
  { getConnections := .error ("down")
    getEmployees := fun _ _ => .error ("down")
    newPayrollRequest := fun _ => .error ("down")
    getPayrollCalendars := fun _ => .error ("down")
    employeeLeaveBalance := fun _ _ => .error ("down")
    employeeLeaveApplication := fun _ _ => .error ("down") }

/-- A generic parsed row used by concrete scenarios. -/
def rowAny : KrowLeaveRequest :=
  { leaveDate := ("1/6/2020")
    leaveDateEpoch := 1590969600000
    hours := 8
    leaveType := annualLeave
    orgName := ("DigIO")
    empName := ("Syril Sadasivan")
    description := ("") }

/-- Environment whose balance lookup succeeds with an empty employee list. -/
def c9Env : XeroEnv :=
  { errEnv with employeeLeaveBalance := fun _ _ => .ok ⟨[], 60⟩ }

def lbJury : LeaveBalance :=
  { leaveType := juryDutyLeave
    leaveTypeID := ("JD1")
    numberOfUnits := 0
    typeOfUnits := ("Hours") }

def empJury : Employee :=
  { employeeID := ("E1")
    firstName := ("Stina")
    lastName := ("Anderson")
    status := ("Active")
    payrollCalendarID := ("PC1")
    leaveBalance := [lbJury] }

def rowJury : KrowLeaveRequest :=
  { rowAny with leaveType := juryDutyLeave, empName := ("Stina Anderson") }

/-- Environment whose balance lookup finds only a zero Jury Duty balance. -/
def c3Env : XeroEnv :=
  { errEnv with employeeLeaveBalance := fun _ _ => .ok ⟨[empJury], 60⟩ }

def lbPurch : LeaveBalance :=
  { leaveType := ("Purchased Leave")
    leaveTypeID := ("PL1")
    numberOfUnits := 0
    typeOfUnits := ("Hours") }

def empPurch : Employee := { empJury with leaveBalance := [lbPurch] }

def rowPurch : KrowLeaveRequest :=
  { rowAny with leaveType := ("Purchased Leave"), empName := ("Stina Anderson") }

/-- Environment whose balance map has no Other Unpaid Leave entry. -/
def c10Env : XeroEnv :=
  { errEnv with employeeLeaveBalance := fun _ _ => .ok ⟨[empPurch], 60⟩ }

def johnSmith : Employee :=
  { employeeID := ("E9")
    firstName := ("John")
    lastName := ("Smith")
    status := ("Active")
    payrollCalendarID := ("PC9")
    leaveBalance := [] }

/-- Environment where the OrgA employee fetch succeeds and the OrgB one
fails. -/
def c4Env : XeroEnv :=
  { errEnv with
    getConnections := .ok [⟨("TA"), ("Org"), ("OrgA")⟩, ⟨("TB"), ("Org"), ("OrgB")⟩]
    getEmployees := fun t _ =>
      if t == ("TA") then .ok ⟨("Active"), [johnSmith], 60⟩
      else .error ("boom") }

def rowA4 : KrowLeaveRequest :=
  { rowAny with orgName := ("OrgA"), empName := ("John Smith") }

def rowB4 : KrowLeaveRequest := { rowAny with orgName := ("OrgB") }

/-- The connections map the c4Env connections produce. -/
def c4Cmap : List (String × String) := [(("OrgB"), ("TB")), (("OrgA"), ("TA"))]

/-- Outcome of a run with no parsed rows and no extraction errors. -/
def c5Out : RunOutcome :=
  { errResult := []
    successResult := []
    returned := none
    emailSent := true
    empFetchCalls := [] }

def empRep : Employee := { johnSmith with employeeID := ("ER") }

/-- Environment where the employees page 1 holds 100 entries and page 2
fails. -/
def c6Env : XeroEnv :=
  { errEnv with
    getConnections := .ok [⟨("TB"), ("Org"), ("OrgB")⟩]
    getEmployees := fun _ p =>
      if p == 1 then .ok ⟨("OK"), List.replicate 100 empRep, 60⟩
      else .error ("boom") }

def rowB6 : KrowLeaveRequest := { rowAny with orgName := ("OrgB") }

/-- A loop state whose employee cache list already holds OrgX. -/
def stCached : RunState := { initState [] with orgEmpCacheList := [("OrgX")] }

def rowX6 : KrowLeaveRequest := { rowAny with orgName := ("OrgX") }

def stCachedAfter : RunState :=
  { stCached with errStrings := [errOrgNotFound ("OrgX")] }

/-- Environment with a connections listing that lacks the Ghost org. -/
def c8Env : XeroEnv := { errEnv with getConnections := .ok [] }

def rowGhost : KrowLeaveRequest := { rowAny with orgName := ("Ghost") }

theorem eqFold_eq_of_true {a b : String} (h : eqFold a b = true) :
    a.data.map charToLower = b.data.map charToLower := by
  simpa [eqFold] using h

theorem annual_not_personal {lt : String} (h : eqFold lt annualLeave = true) :
    eqFold lt personalLeave = false := by
  have h2 := eqFold_eq_of_true h
  unfold eqFold
  rw [h2]
  decide

theorem qAbs_eq_abs (x : ℚ) : qAbs x = |x| := by
  unfold qAbs
  rcases lt_or_le x 0 with h | h
  · rw [if_pos h, abs_of_neg h]
  · rw [if_neg (not_lt.2 h), abs_of_nonneg h]

/-- Claim C1: for a row whose leave type case-insensitively matches Annual
Leave (floor -40) or Personal/Carer leave (floor -16), the effective
available units are the three-branch transform of the raw balance: zero
below the floor, absolute floor plus raw when raw is positive, absolute
difference of floor and raw otherwise; every other leave type uses the raw
balance unchanged. -/
theorem claim_C1_negative_headroom_transform (lt : String) (raw : ℚ) :
    (eqFold lt annualLeave = true →
      effectiveAvailable lt raw =
        if raw < -40 then 0
        else if 0 < raw then |(-40 : ℚ)| + raw
        else |(-40 : ℚ) - raw|) ∧
    (eqFold lt personalLeave = true →
      effectiveAvailable lt raw =
        if raw < -16 then 0
        else if 0 < raw then |(-16 : ℚ)| + raw
        else |(-16 : ℚ) - raw|) ∧
    (eqFold lt annualLeave = false → eqFold lt personalLeave = false →
      effectiveAvailable lt raw = raw) := by
  refine ⟨fun h => ?_, fun h => ?_, fun h1 h2 => ?_⟩
  · have hp := annual_not_personal h
    simp [effectiveAvailable, h, hp, annualLeaveNegativeLimit, qAbs_eq_abs]
  · simp [effectiveAvailable, h, personalLeaveNegativeLimit, qAbs_eq_abs]
  · simp [effectiveAvailable, h1, h2]

/-- Witness for claim C1 at the annual-leave input with raw balance -44. -/
theorem claim_C1_witness :
    eqFold ("ANNUAL LEAVE") annualLeave = true ∧
      effectiveAvailable ("ANNUAL LEAVE") (-44) =
        (if (-44 : ℚ) < -40 then 0
         else if 0 < (-44 : ℚ) then |(-40 : ℚ)| + (-44)
         else |(-40 : ℚ) - (-44)|) :=
  ⟨by decide,
    (claim_C1_negative_headroom_transform ("ANNUAL LEAVE") (-44)).1 (by decide)⟩

/-- Claim C2: the split of requested hours R against effective available A
is (A, R - A) when A is at most R and positive, (0, R) when A is at most R
and nonpositive, and (R, 0) when R is below A; when R equals a positive A
the row is fully paid. -/
theorem claim_C2_paid_unpaid_split (r a : ℚ) :
    (a ≤ r → 0 < a → leaveSplit r a = (a, r - a)) ∧
    (a ≤ r → a ≤ 0 → leaveSplit r a = (0, r)) ∧
    (r < a → leaveSplit r a = (r, 0)) ∧
    (0 < a → leaveSplit a a = (a, 0)) := by
  refine ⟨fun h1 h2 => ?_, fun h1 h2 => ?_, fun h => ?_, fun h => ?_⟩
  · simp [leaveSplit, h1, h2]
  · simp [leaveSplit, h1, not_lt.2 h2]
  · simp [leaveSplit, not_le.2 h]
  · simp [leaveSplit, le_refl, h, sub_self]

/-- Witness for claim C2 at requested 8 against available 6. -/
theorem claim_C2_witness :
    (6 : ℚ) ≤ 8 ∧ (0 : ℚ) < 6 ∧ leaveSplit 8 6 = (6, 8 - 6) :=
  ⟨by decide, by decide,
    (claim_C2_paid_unpaid_split 8 6).1 (by decide) (by decide)⟩

/-- Claim C9: a successful balance response with an empty employee list
drives reconcileLeaveRequestAndApply into the unguarded Employees[0]
access, an index-out-of-range panic; no error branch exists for it. -/
theorem claim_C9_empty_employees_panic (env : XeroEnv)
    (empID tenantID : String) (leaveReq : KrowLeaveRequest)
    (paymentDate : String) (resp : LeaveBalanceResponse)
    (hfetch : env.employeeLeaveBalance tenantID empID = .ok resp)
    (hempty : resp.employees = []) :
    reconcileLeaveRequestAndApply env empID tenantID leaveReq paymentDate =
      .indexOutOfRange := by
  simp [reconcileLeaveRequestAndApply, hfetch, hempty]

/-- Witness for claim C9 on the concrete empty-employees environment. -/
theorem claim_C9_witness :
    c9Env.employeeLeaveBalance ("T1") ("E1") = .ok ⟨[], 60⟩ ∧
      (⟨[], 60⟩ : LeaveBalanceResponse).employees = [] ∧
      reconcileLeaveRequestAndApply c9Env ("E1") ("T1") rowAny ("pd") =
        .indexOutOfRange :=
  ⟨rfl, rfl,
    claim_C9_empty_employees_panic c9Env ("E1") ("T1") rowAny ("pd")
      ⟨[], 60⟩ rfl rfl⟩

theorem intercalate_newline_singleton (x : String) :
    String.intercalate ("\n") [x] = x := rfl

theorem intercalate_newline_nil :
    String.intercalate ("\n") ([] : List String) = "" := rfl

theorem reconcile_fetch_error (env : XeroEnv) (empID tenantID : String)
    (leaveReq : KrowLeaveRequest) (paymentDate : String) (e : String)
    (hb : env.employeeLeaveBalance tenantID empID = .error e) :
    reconcileLeaveRequestAndApply env empID tenantID leaveReq paymentDate =
      .result [] (errFetchLeaveBalance leaveReq.empName leaveReq.orgName) := by
  simp [reconcileLeaveRequestAndApply, hb]

theorem reconcile_empty_emps (env : XeroEnv) (empID tenantID : String)
    (leaveReq : KrowLeaveRequest) (paymentDate : String)
    (resp : LeaveBalanceResponse)
    (hb : env.employeeLeaveBalance tenantID empID = .ok resp)
    (hemps : resp.employees = []) :
    reconcileLeaveRequestAndApply env empID tenantID leaveReq paymentDate =
      .indexOutOfRange := by
  simp [reconcileLeaveRequestAndApply, hb, hemps]

theorem reconcile_type_missing (env : XeroEnv) (empID tenantID : String)
    (leaveReq : KrowLeaveRequest) (paymentDate : String)
    (resp : LeaveBalanceResponse) (emp0 : Employee) (rest : List Employee)
    (hb : env.employeeLeaveBalance tenantID empID = .ok resp)
    (hemps : resp.employees = emp0 :: rest)
    (hlb : mapFind? (leaveBalanceMapOf emp0) leaveReq.leaveType = none) :
    reconcileLeaveRequestAndApply env empID tenantID leaveReq paymentDate =
      .result []
        (errLeaveTypeNotFound leaveReq.leaveType leaveReq.empName
          leaveReq.orgName) := by
  simp [reconcileLeaveRequestAndApply, hb, hemps, hlb]

theorem reconcile_result_eq (env : XeroEnv) (empID tenantID : String)
    (leaveReq : KrowLeaveRequest) (paymentDate : String)
    (resp : LeaveBalanceResponse) (emp0 : Employee) (rest : List Employee)
    (lb : LeaveBalance)
    (hfetch : env.employeeLeaveBalance tenantID empID = .ok resp)
    (hemps : resp.employees = emp0 :: rest)
    (hlb : mapFind? (leaveBalanceMapOf emp0) leaveReq.leaveType = some lb) :
    reconcileLeaveRequestAndApply env empID tenantID leaveReq paymentDate =
      .result
        ((if 0 < (splitOf leaveReq lb).1 then
            [mkPaidSubmission empID tenantID leaveReq paymentDate
              lb.leaveTypeID (splitOf leaveReq lb).1]
          else []) ++
         (if 0 < (splitOf leaveReq lb).2 && !skipUnpaid leaveReq.leaveType then
            [mkUnpaidSubmission empID tenantID leaveReq paymentDate
              (unPaidLeaveTypeIdOf emp0) (splitOf leaveReq lb).2]
          else []))
        (String.intercalate ("\n")
          (if 0 < (splitOf leaveReq lb).2 && skipUnpaid leaveReq.leaveType then
            [errInsufficientBalance leaveReq.empName leaveReq.leaveType
              (splitOf leaveReq lb).2]
          else [])) := by
  simp [reconcileLeaveRequestAndApply, hfetch, hemps, hlb, splitOf]

/-- Claim C3: for a compassionate or jury-duty row whose split leaves a
positive unpaid remainder, no unpaid submission is dispatched, exactly the
one insufficient-balance error is returned, and the paid portion is still
dispatched whenever the paid units are positive. -/
theorem claim_C3_skip_types_insufficient (env : XeroEnv)
    (empID tenantID : String) (leaveReq : KrowLeaveRequest)
    (paymentDate : String) (resp : LeaveBalanceResponse) (emp0 : Employee)
    (rest : List Employee) (lb : LeaveBalance)
    (hskip : skipUnpaid leaveReq.leaveType = true)
    (hfetch : env.employeeLeaveBalance tenantID empID = .ok resp)
    (hemps : resp.employees = emp0 :: rest)
    (hlb : mapFind? (leaveBalanceMapOf emp0) leaveReq.leaveType = some lb)
    (hunpaid : 0 < (splitOf leaveReq lb).2) :
    reconcileLeaveRequestAndApply env empID tenantID leaveReq paymentDate =
      .result
        (if 0 < (splitOf leaveReq lb).1 then
          [mkPaidSubmission empID tenantID leaveReq paymentDate
            lb.leaveTypeID (splitOf leaveReq lb).1]
         else [])
        (errInsufficientBalance leaveReq.empName leaveReq.leaveType
          (splitOf leaveReq lb).2) := by
  rw [reconcile_result_eq env empID tenantID leaveReq paymentDate resp emp0
    rest lb hfetch hemps hlb, hskip]
  simp [hunpaid, intercalate_newline_singleton]

/-- Witness for claim C3: a Jury Duty row for 8 hours against a zero
balance yields no submissions and the single insufficient-balance error. -/
theorem claim_C3_witness :
    skipUnpaid rowJury.leaveType = true ∧
      0 < (splitOf rowJury lbJury).2 ∧
      reconcileLeaveRequestAndApply c3Env ("E1") ("T1") rowJury ("pd") =
        .result
          (if 0 < (splitOf rowJury lbJury).1 then
            [mkPaidSubmission ("E1") ("T1") rowJury ("pd")
              lbJury.leaveTypeID (splitOf rowJury lbJury).1]
           else [])
          (errInsufficientBalance rowJury.empName rowJury.leaveType
            (splitOf rowJury lbJury).2) :=
  ⟨by decide, by decide,
    claim_C3_skip_types_insufficient c3Env ("E1") ("T1") rowJury ("pd")
      ⟨[empJury], 60⟩ empJury [] lbJury (by decide) rfl rfl (by decide)
      (by decide)⟩

theorem reconcile_subs_length (env : XeroEnv) (empID tenantID : String)
    (leaveReq : KrowLeaveRequest) (paymentDate : String) :
    ∀ subs errMsg,
      reconcileLeaveRequestAndApply env empID tenantID leaveReq paymentDate =
        .result subs errMsg →
      subs.length ≤ 2 := by
  intro subs errMsg h
  rcases hb : env.employeeLeaveBalance tenantID empID with e | resp
  · rw [reconcile_fetch_error env empID tenantID leaveReq paymentDate e hb]
      at h
    injection h with h1 h2
    subst h1
    decide
  · rcases hemps : resp.employees with _ | ⟨emp0, rest⟩
    · rw [reconcile_empty_emps env empID tenantID leaveReq paymentDate resp
        hb hemps] at h
      exact absurd h (by simp)
    · rcases hlb : mapFind? (leaveBalanceMapOf emp0) leaveReq.leaveType
        with _ | lb
      · rw [reconcile_type_missing env empID tenantID leaveReq paymentDate
          resp emp0 rest hb hemps hlb] at h
        injection h with h1 h2
        subst h1
        decide
      · rw [reconcile_result_eq env empID tenantID leaveReq paymentDate
          resp emp0 rest lb hb hemps hlb] at h
        injection h with h1 h2
        subst h1
        split <;> split <;> simp


/-- Claim C7: every row dispatches at most two submissions; with the
balance data in view they are exactly the optional paid portion, carrying
the id of the matched balance entry, and the optional unpaid portion,
present only when the unpaid units are positive and the type is not a
skip type, carrying the harvested Other Unpaid Leave type id. -/
theorem claim_C7_at_most_two_submissions (env : XeroEnv)
    (empID tenantID : String) (leaveReq : KrowLeaveRequest)
    (paymentDate : String) :
    (∀ subs errMsg,
      reconcileLeaveRequestAndApply env empID tenantID leaveReq paymentDate =
        .result subs errMsg →
      subs.length ≤ 2) ∧
    (∀ (resp : LeaveBalanceResponse) (emp0 : Employee)
        (rest : List Employee) (lb : LeaveBalance),
      env.employeeLeaveBalance tenantID empID = .ok resp →
      resp.employees = emp0 :: rest →
      mapFind? (leaveBalanceMapOf emp0) leaveReq.leaveType = some lb →
      reconcileLeaveRequestAndApply env empID tenantID leaveReq paymentDate =
        .result
          ((if 0 < (splitOf leaveReq lb).1 then
              [mkPaidSubmission empID tenantID leaveReq paymentDate
                lb.leaveTypeID (splitOf leaveReq lb).1]
            else []) ++
           (if 0 < (splitOf leaveReq lb).2 && !skipUnpaid leaveReq.leaveType
            then
              [mkUnpaidSubmission empID tenantID leaveReq paymentDate
                (unPaidLeaveTypeIdOf emp0) (splitOf leaveReq lb).2]
            else []))
          (String.intercalate ("\n")
            (if 0 < (splitOf leaveReq lb).2 && skipUnpaid leaveReq.leaveType
             then
              [errInsufficientBalance leaveReq.empName leaveReq.leaveType
                (splitOf leaveReq lb).2]
             else []))) := by
  constructor
  · exact reconcile_subs_length env empID tenantID leaveReq paymentDate
  · intro resp emp0 rest lb hfetch hemps hlb
    exact reconcile_result_eq env empID tenantID leaveReq paymentDate resp
      emp0 rest lb hfetch hemps hlb

/-- Witness for claim C7 on a failing balance fetch, which dispatches no
submission at all. -/
theorem claim_C7_witness :
    reconcileLeaveRequestAndApply errEnv ("E1") ("T1") rowAny ("pd") =
      .result [] (errFetchLeaveBalance rowAny.empName rowAny.orgName) ∧
      ([] : List EmpLeaveRequest).length ≤ 2 :=
  ⟨rfl,
    (claim_C7_at_most_two_submissions errEnv ("E1") ("T1") rowAny
      ("pd")).1 [] (errFetchLeaveBalance rowAny.empName rowAny.orgName) rfl⟩

theorem foldl_unpaid_id_none (l : List LeaveBalance) :
    ∀ acc : String,
      (∀ b ∈ l, eqFold b.leaveType unPaidLeave = false) →
      l.foldl
        (fun acc b =>
          if eqFold b.leaveType unPaidLeave then b.leaveTypeID else acc)
        acc = acc := by
  induction l with
  | nil => intro acc _; rfl
  | cons b t ih =>
    intro acc h
    simp only [List.foldl_cons]
    rw [if_neg (by simp [h b (List.mem_cons_self b t)])]
    exact ih acc (fun x hx => h x (List.mem_cons_of_mem b hx))

theorem unPaidLeaveTypeIdOf_empty (emp : Employee)
    (h : ∀ b ∈ emp.leaveBalance, eqFold b.leaveType unPaidLeave = false) :
    unPaidLeaveTypeIdOf emp = "" := by
  unfold unPaidLeaveTypeIdOf
  exact foldl_unpaid_id_none emp.leaveBalance ("") h

/-- Claim C10: when the employee balance map has no entry named Other
Unpaid Leave, a non-skip row with positive unpaid units still gets an
unpaid submission whose leave type id is the empty string, while the
returned error is empty. -/
theorem claim_C10_missing_unpaid_type_id (env : XeroEnv)
    (empID tenantID : String) (leaveReq : KrowLeaveRequest)
    (paymentDate : String) (resp : LeaveBalanceResponse) (emp0 : Employee)
    (rest : List Employee) (lb : LeaveBalance)
    (hfetch : env.employeeLeaveBalance tenantID empID = .ok resp)
    (hemps : resp.employees = emp0 :: rest)
    (hnone : ∀ b ∈ emp0.leaveBalance, eqFold b.leaveType unPaidLeave = false)
    (hlb : mapFind? (leaveBalanceMapOf emp0) leaveReq.leaveType = some lb)
    (hskip : skipUnpaid leaveReq.leaveType = false)
    (hunpaid : 0 < (splitOf leaveReq lb).2) :
    reconcileLeaveRequestAndApply env empID tenantID leaveReq paymentDate =
      .result
        ((if 0 < (splitOf leaveReq lb).1 then
            [mkPaidSubmission empID tenantID leaveReq paymentDate
              lb.leaveTypeID (splitOf leaveReq lb).1]
          else []) ++
          [mkUnpaidSubmission empID tenantID leaveReq paymentDate ("")
            (splitOf leaveReq lb).2])
        ("") := by
  rw [reconcile_result_eq env empID tenantID leaveReq paymentDate resp emp0
    rest lb hfetch hemps hlb, hskip, unPaidLeaveTypeIdOf_empty emp0 hnone]
  simp [hunpaid, intercalate_newline_nil]

/-- Witness for claim C10: a Purchased Leave row for 8 hours against a
zero balance with no Other Unpaid Leave entry dispatches one unpaid
submission with an empty type id and no error. -/
theorem claim_C10_witness :
    (∀ b ∈ empPurch.leaveBalance, eqFold b.leaveType unPaidLeave = false) ∧
      skipUnpaid rowPurch.leaveType = false ∧
      0 < (splitOf rowPurch lbPurch).2 ∧
      reconcileLeaveRequestAndApply c10Env ("E1") ("T1") rowPurch ("pd") =
        .result
          ((if 0 < (splitOf rowPurch lbPurch).1 then
              [mkPaidSubmission ("E1") ("T1") rowPurch ("pd")
                lbPurch.leaveTypeID (splitOf rowPurch lbPurch).1]
            else []) ++
            [mkUnpaidSubmission ("E1") ("T1") rowPurch ("pd") ("")
              (splitOf rowPurch lbPurch).2])
          ("") :=
  ⟨by decide, by decide, by decide,
    claim_C10_missing_unpaid_type_id c10Env ("E1") ("T1") rowPurch ("pd")
      ⟨[empPurch], 60⟩ empPurch [] lbPurch rfl rfl (by decide) (by decide)
      (by decide) (by decide)⟩

theorem populate_fail_errs :
    ∀ (fuel : Nat) (env : XeroEnv) (m : List (String × Employee))
      (tenantID orgName : String) (page : Nat)
      (calls : List (String × Nat)) (errs : List String),
      populateEmployeesMap env m tenantID orgName page fuel =
        (calls, .fail errs) →
      errs = [errFetchEmployees orgName] := by
  intro fuel
  induction fuel with
  | zero =>
    intro env m t o page calls errs h
    simp [populateEmployeesMap] at h
  | succ fuel ih =>
    intro env m t o page calls errs h
    unfold populateEmployeesMap at h
    rcases he : env.getEmployees t page with e | r
    · simp only [he] at h
      rw [Prod.mk.injEq] at h
      obtain ⟨h1, h2⟩ := h
      injection h2 with h3
      exact h3.symm
    · simp only [he] at h
      by_cases hlen : 99 < r.employees.length
      · rw [if_pos hlen] at h
        rw [Prod.mk.injEq] at h
        obtain ⟨h1, h2⟩ := h
        exact ih env _ t o (page + 1) _ errs (by rw [← h2])
      · rw [if_neg hlen] at h
        rw [Prod.mk.injEq] at h
        obtain ⟨h1, h2⟩ := h
        simp at h2

theorem range_map_shift (t : String) (page k : Nat) :
    (List.range (k + 1 + 1)).map (fun i => (t, page + i)) =
      (t, page) :: (List.range (k + 1)).map (fun i => (t, page + 1 + i)) := by
  rw [List.range_succ_eq_map, List.map_cons, List.map_map]
  congr 1
  congr 1
  funext a
  show (t, page + (a + 1)) = (t, page + 1 + a)
  rw [show page + (a + 1) = page + 1 + a from by omega]

theorem populate_ok_pages :
    ∀ (fuel : Nat) (env : XeroEnv) (m : List (String × Employee))
      (tenantID orgName : String) (page : Nat)
      (calls : List (String × Nat)) (m1 : List (String × Employee)),
      populateEmployeesMap env m tenantID orgName page fuel =
        (calls, .ok m1) →
      ∃ k, calls = (List.range (k + 1)).map (fun i => (tenantID, page + i)) ∧
        (∀ i, i < k → ∃ r, env.getEmployees tenantID (page + i) = .ok r ∧
          99 < r.employees.length) ∧
        (∃ r, env.getEmployees tenantID (page + k) = .ok r ∧
          r.employees.length ≤ 99) := by
  intro fuel
  induction fuel with
  | zero =>
    intro env m t o page calls m1 h
    simp [populateEmployeesMap] at h
  | succ fuel ih =>
    intro env m t o page calls m1 h
    unfold populateEmployeesMap at h
    rcases he : env.getEmployees t page with e | r
    · simp only [he] at h
      rw [Prod.mk.injEq] at h
      obtain ⟨h1, h2⟩ := h
      simp at h2
    · simp only [he] at h
      by_cases hlen : 99 < r.employees.length
      · rw [if_pos hlen] at h
        rw [Prod.mk.injEq] at h
        obtain ⟨h1, h2⟩ := h
        obtain ⟨k, hc, hall, hlast⟩ :=
          ih env _ t o (page + 1) _ m1 (by rw [← h2])
        refine ⟨k + 1, ?_, ?_, ?_⟩
        · rw [← h1, hc, range_map_shift t page k]
        · intro i hi
          rcases i with _ | j
          · refine ⟨r, ?_, hlen⟩
            rw [Nat.add_zero]
            exact he
          · obtain ⟨r2, hr2, hl2⟩ := hall j (by omega)
            refine ⟨r2, ?_, hl2⟩
            rw [show page + (j + 1) = page + 1 + j by omega]
            exact hr2
        · obtain ⟨r2, hr2, hl2⟩ := hlast
          refine ⟨r2, ?_, hl2⟩
          rw [show page + (k + 1) = page + 1 + k by omega]
          exact hr2
      · rw [if_neg hlen] at h
        rw [Prod.mk.injEq] at h
        obtain ⟨h1, h2⟩ := h
        refine ⟨0, ?_, ?_, ⟨r, ?_, not_lt.1 hlen⟩⟩
        · rw [← h1]
          rfl
        · intro i hi
          omega
        · rw [Nat.add_zero]
          exact he

theorem fillCalCache_fst_preserves (env : XeroEnv) (st : RunState)
    (tenantID orgName : String) :
    (fillCalCache env st tenantID orgName).1.empFetchCalls =
        st.empFetchCalls ∧
      (fillCalCache env st tenantID orgName).1.xeroEmployeesMap =
        st.xeroEmployeesMap := by
  unfold fillCalCache
  split
  · exact ⟨rfl, rfl⟩
  · split
    · exact ⟨rfl, rfl⟩
    · split
      · exact ⟨rfl, rfl⟩
      · exact ⟨rfl, rfl⟩

theorem processRow_cached_no_fetch (env : XeroEnv)
    (cmap : List (String × String)) (fuel : Nat) (st : RunState)
    (leaveReq : KrowLeaveRequest) (st1 : RunState)
    (hcache : containsString st.orgEmpCacheList leaveReq.orgName = true)
    (h : processRow env cmap fuel st leaveReq = some st1) :
    st1.empFetchCalls = st.empFetchCalls := by
  unfold processRow at h
  rcases horg : mapFind? cmap leaveReq.orgName with _ | tenantID
  · simp only [horg] at h
    injection h with h1
    rw [← h1]
  · simp only [horg] at h
    have hfe : fillEmpCache env fuel st tenantID leaveReq.orgName =
        some (st, true) := by
      unfold fillEmpCache
      rw [if_pos hcache]
    rw [hfe] at h
    have hpres := (fillCalCache_fst_preserves env st tenantID
      leaveReq.orgName).1
    rcases hfc : fillCalCache env st tenantID leaveReq.orgName
      with ⟨st2, flag⟩
    rw [hfc] at hpres
    cases flag
    · simp only [hfc] at h
      injection h with h1
      rw [← h1]
      exact hpres
    · simp only [hfc] at h
      rcases hpl : processLeaveRequestByEmp env st2.xeroEmployeesMap
          leaveReq tenantID st2.payrollCalendarMap with _ | ⟨subs, errMsg⟩
      · rw [hpl] at h
        exact absurd h (by simp)
      · simp only [hpl] at h
        injection h with h1
        rw [← h1]
        exact hpres

theorem containsString_append_self (l : List String) (x : String) :
    containsString (l ++ [x]) x = true := by
  simp [containsString]

theorem fillEmpCache_true_cached (env : XeroEnv) (fuel : Nat)
    (st : RunState) (tenantID orgName : String) (st1 : RunState)
    (h : fillEmpCache env fuel st tenantID orgName = some (st1, true)) :
    containsString st1.orgEmpCacheList orgName = true := by
  unfold fillEmpCache at h
  by_cases hc : containsString st.orgEmpCacheList orgName = true
  · rw [if_pos hc] at h
    injection h with h1
    injection h1 with h2 h3
    rw [← h2]
    exact hc
  · rw [if_neg hc] at h
    rcases hp : populateEmployeesMap env st.xeroEmployeesMap tenantID
        orgName 1 fuel with ⟨calls, res⟩
    rw [hp] at h
    cases res
    · injection h with h1
      injection h1 with h2 h3
      rw [← h2]
      exact containsString_append_self st.orgEmpCacheList orgName
    · injection h with h1
      injection h1 with h2 h3
      exact absurd h3 (by simp)
    · exact absurd h (by simp)

/-- Counterexample to claim C4 as stated: after OrgA fills the employee
cache with John Smith, a failing fill for OrgB replaces the shared map
with the empty map, so the previously merged entry is gone; and two
failing OrgB rows leave a single fetch error that also overwrote the
extraction error, not one error per row. -/
theorem claim_C4_counterexample :
    (Option.map
        (fun st => (mapFind? st.xeroEmployeesMap ("John Smith")).isSome)
        (runRows c4Env c4Cmap 3 (initState []) [rowA4]) = some true) ∧
      (Option.map
        (fun st => (mapFind? st.xeroEmployeesMap ("John Smith")).isSome)
        (runRows c4Env c4Cmap 3 (initState []) [rowA4, rowB4]) =
          some false) ∧
      (Option.map RunState.errResult
        (runRows c4Env c4Cmap 3 (initState [("extract error")])
          [rowA4, rowB4, rowB4]) =
        some [errFetchEmployees ("OrgB")]) := by
  refine ⟨?_, ?_, ?_⟩ <;> decide

/-- Claim C4 (amended): a page-fetch failure during an organization fill
aborts that fill and replaces the caller employee map by the empty map,
discarding entries merged for previously processed organizations; it is
surfaced as the single fetch error for that organization, which overwrites
the accumulated errResult list rather than adding one error per row. -/
theorem claim_C4_fail_wipes_employee_cache (env : XeroEnv)
    (cmap : List (String × String)) (fuel : Nat) (st : RunState)
    (leaveReq : KrowLeaveRequest) (tenantID : String)
    (calls : List (String × Nat)) (errs : List String)
    (horg : mapFind? cmap leaveReq.orgName = some tenantID)
    (hmiss : containsString st.orgEmpCacheList leaveReq.orgName = false)
    (hfail : populateEmployeesMap env st.xeroEmployeesMap tenantID
      leaveReq.orgName 1 fuel = (calls, .fail errs)) :
    errs = [errFetchEmployees leaveReq.orgName] ∧
      processRow env cmap fuel st leaveReq =
        some { st with
          xeroEmployeesMap := []
          errResult := errs
          empFetchCalls := st.empFetchCalls ++ calls } := by
  refine ⟨populate_fail_errs fuel env st.xeroEmployeesMap tenantID
    leaveReq.orgName 1 calls errs hfail, ?_⟩
  have hfe : fillEmpCache env fuel st tenantID leaveReq.orgName =
      some ({ st with
        xeroEmployeesMap := []
        errResult := errs
        empFetchCalls := st.empFetchCalls ++ calls }, false) := by
    unfold fillEmpCache
    rw [if_neg (by simp [hmiss])]
    rw [hfail]
  unfold processRow
  simp only [horg, hfe]

/-- Witness for the amended claim C4 on the concrete two-organization
environment. -/
theorem claim_C4_witness :
    mapFind? c4Cmap rowB4.orgName = some ("TB") ∧
      containsString (initState []).orgEmpCacheList rowB4.orgName = false ∧
      populateEmployeesMap c4Env (initState []).xeroEmployeesMap ("TB")
        rowB4.orgName 1 3 =
        ([(("TB"), 1)], .fail [errFetchEmployees ("OrgB")]) ∧
      ([errFetchEmployees ("OrgB")] = [errFetchEmployees rowB4.orgName] ∧
        processRow c4Env c4Cmap 3 (initState []) rowB4 =
          some { initState [] with
            xeroEmployeesMap := []
            errResult := [errFetchEmployees ("OrgB")]
            empFetchCalls :=
              (initState []).empFetchCalls ++ [(("TB"), 1)] }) :=
  ⟨by decide, by decide, by decide,
    claim_C4_fail_wipes_employee_cache c4Env c4Cmap 3 (initState [])
      rowB4 ("TB") [(("TB"), 1)] [errFetchEmployees ("OrgB")] (by decide)
      (by decide) (by decide)⟩

/-- Counterexample to claim C6 as stated: when the fetch of a page fails,
the organization never enters the cache list, so a second row of the same
organization fetches page 1 again (two page-1 calls in one run), and the
fill stops on an erroring page rather than on a page with fewer than 100
entries even though page 1 returned 100 employees. -/
theorem claim_C6_counterexample :
    (Option.map RunOutcome.empFetchCalls
        (MigrateLeaveKrowToXero c6Env [rowB6, rowB6] [] 3) =
      some [(("TB"), 1), (("TB"), 2), (("TB"), 1), (("TB"), 2)]) ∧
      1 < ([(("TB"), 1), (("TB"), 2), (("TB"), 1), (("TB"), 2)].count
        (("TB"), 1)) ∧
      populateEmployeesMap c6Env [] ("TB") ("OrgB") 1 3 =
        ([(("TB"), 1), (("TB"), 2)], .fail [errFetchEmployees ("OrgB")]) ∧
      (match c6Env.getEmployees ("TB") 1 with
        | .ok r => r.employees.length
        | .error _ => 0) = 100 ∧
      (match c6Env.getEmployees ("TB") 2 with
        | .ok _ => false
        | .error _ => true) = true := by
  refine ⟨?_, ?_, ?_, ?_, ?_⟩ <;> decide

/-- Claim C6 (amended): a row whose organization is already in the cache
list triggers no employee fetch; a fill that succeeds puts the
organization into the cache list; and a successful fill fetches the
consecutive pages from its start page, every page before the last holding
more than 99 employees and the last at most 99 (a failed fill is retried
by later rows of the same organization). -/
theorem claim_C6_cache_and_pagination :
    (∀ (env : XeroEnv) (cmap : List (String × String)) (fuel : Nat)
        (st : RunState) (leaveReq : KrowLeaveRequest) (st1 : RunState),
      containsString st.orgEmpCacheList leaveReq.orgName = true →
      processRow env cmap fuel st leaveReq = some st1 →
      st1.empFetchCalls = st.empFetchCalls) ∧
    (∀ (env : XeroEnv) (fuel : Nat) (st : RunState)
        (tenantID orgName : String) (st1 : RunState),
      fillEmpCache env fuel st tenantID orgName = some (st1, true) →
      containsString st1.orgEmpCacheList orgName = true) ∧
    (∀ (env : XeroEnv) (m : List (String × Employee))
        (tenantID orgName : String) (page : Nat)
        (calls : List (String × Nat)) (m1 : List (String × Employee))
        (fuel : Nat),
      populateEmployeesMap env m tenantID orgName page fuel =
        (calls, .ok m1) →
      ∃ k, calls = (List.range (k + 1)).map (fun i => (tenantID, page + i)) ∧
        (∀ i, i < k → ∃ r, env.getEmployees tenantID (page + i) = .ok r ∧
          99 < r.employees.length) ∧
        (∃ r, env.getEmployees tenantID (page + k) = .ok r ∧
          r.employees.length ≤ 99)) := by
  refine ⟨?_, ?_, ?_⟩
  · exact fun env cmap fuel st lr st1 hc h =>
      processRow_cached_no_fetch env cmap fuel st lr st1 hc h
  · exact fun env fuel st t o st1 h =>
      fillEmpCache_true_cached env fuel st t o st1 h
  · exact fun env m t o page calls m1 fuel h =>
      populate_ok_pages fuel env m t o page calls m1 h

/-- Witness for the amended claim C6: a row of an already cached
organization leaves the fetch trace unchanged. -/
theorem claim_C6_witness :
    containsString stCached.orgEmpCacheList rowX6.orgName = true ∧
      processRow errEnv [] 0 stCached rowX6 = some stCachedAfter ∧
      stCachedAfter.empFetchCalls = stCached.empFetchCalls :=
  ⟨by decide, by decide,
    claim_C6_cache_and_pagination.1 errEnv [] 0 stCached rowX6
      stCachedAfter (by decide) (by decide)⟩

theorem returned_cases (l : List String) :
    ((if l.isEmpty then none else some l) = none ↔ l = []) ∧
      (l ≠ [] → (if l.isEmpty then none else some l) = some l) := by
  cases l <;> simp

/-- Claim C5: whenever the run completes, the value returned to the caller
is nil exactly when the final error partition is empty, otherwise it is
that full error list, and the status report is triggered either way. -/
theorem claim_C5_nil_iff_no_errors (env : XeroEnv)
    (leaveRequests : List KrowLeaveRequest) (extractErrs : List String)
    (fuel : Nat) (out : RunOutcome)
    (h : MigrateLeaveKrowToXero env leaveRequests extractErrs fuel =
      some out) :
    (out.returned = none ↔ out.errResult = []) ∧
      (out.errResult ≠ [] → out.returned = some out.errResult) ∧
      out.emailSent = true := by
  unfold MigrateLeaveKrowToXero at h
  by_cases hreq : leaveRequests.isEmpty
  · rw [if_pos hreq] at h
    injection h with h1
    subst h1
    exact ⟨(returned_cases extractErrs).1, (returned_cases extractErrs).2,
      rfl⟩
  · rw [if_neg hreq] at h
    rcases hc : env.getConnections with e | resp
    · simp only [hc] at h
      injection h with h1
      subst h1
      refine ⟨?_, fun _ => rfl, rfl⟩
      constructor
      · intro habs
        exact absurd habs (by simp)
      · intro habs
        exact absurd habs (by simp)
    · simp only [hc] at h
      rcases hr : runRows env
          (resp.foldl (fun m c => mapInsert m c.orgName c.tenantID) [])
          fuel (initState extractErrs) leaveRequests with _ | st
      · rw [hr] at h
        exact absurd h (by simp)
      · rw [hr] at h
        injection h with h1
        subst h1
        exact ⟨(returned_cases _).1, (returned_cases _).2, rfl⟩

/-- Witness for claim C5 on the empty run. -/
theorem claim_C5_witness :
    MigrateLeaveKrowToXero errEnv [] [] 0 = some c5Out ∧
      ((c5Out.returned = none ↔ c5Out.errResult = []) ∧
        (c5Out.errResult ≠ [] → c5Out.returned = some c5Out.errResult) ∧
        c5Out.emailSent = true) :=
  ⟨rfl, claim_C5_nil_iff_no_errors errEnv [] [] 0 c5Out rfl⟩

/-- Counterexample to claim C8 as stated: two rows naming an organization
absent from the connections listing put the identical organization error
into the returned list twice; nothing deduplicates it. -/
theorem claim_C8_counterexample :
    MigrateLeaveKrowToXero c8Env [rowGhost, rowGhost] [] 1 =
      some
        { errResult := [errOrgNotFound ("Ghost"), errOrgNotFound ("Ghost")]
          successResult := []
          returned :=
            some [errOrgNotFound ("Ghost"), errOrgNotFound ("Ghost")]
          emailSent := true
          empFetchCalls := [] } ∧
      1 < ([errOrgNotFound ("Ghost"), errOrgNotFound ("Ghost")].count
        (errOrgNotFound ("Ghost"))) := by
  constructor <;> decide

/-- Claim C8 (amended): only the errors returned by the per-row processing
step are deduplicated, by substring containment against the already
collected errors; the organization-not-found error is appended
unconditionally, so identical strings can repeat in the result. -/
theorem claim_C8_dedup_only_row_errors :
    (∀ (env : XeroEnv) (cmap : List (String × String)) (fuel : Nat)
        (st : RunState) (leaveReq : KrowLeaveRequest) (tenantID : String)
        (subs : List EmpLeaveRequest) (errMsg : String),
      mapFind? cmap leaveReq.orgName = some tenantID →
      containsString st.orgEmpCacheList leaveReq.orgName = true →
      containsString st.payrollCalCacheList tenantID = true →
      processLeaveRequestByEmp env st.xeroEmployeesMap leaveReq tenantID
        st.payrollCalendarMap = .result subs errMsg →
      containsError st.errStrings errMsg = true →
      processRow env cmap fuel st leaveReq =
        some { st with submissions := st.submissions ++ subs }) ∧
    (∀ (env : XeroEnv) (cmap : List (String × String)) (fuel : Nat)
        (st : RunState) (leaveReq : KrowLeaveRequest),
      mapFind? cmap leaveReq.orgName = none →
      processRow env cmap fuel st leaveReq =
        some { st with errStrings :=
          st.errStrings ++ [errOrgNotFound leaveReq.orgName] }) := by
  constructor
  · intro env cmap fuel st leaveReq tenantID subs errMsg horg hoc hpc hpl
      hce
    have hfe : fillEmpCache env fuel st tenantID leaveReq.orgName =
        some (st, true) := by
      unfold fillEmpCache
      rw [if_pos hoc]
    have hfc : fillCalCache env st tenantID leaveReq.orgName = (st, true) := by
      unfold fillCalCache
      rw [if_pos hpc]
    unfold processRow
    simp [horg, hfe, hfc, hpl, hce]
  · intro env cmap fuel st leaveReq horg
    unfold processRow
    simp only [horg]

/-- Witness for the amended claim C8: a row of an unknown organization
appends its error unconditionally. -/
theorem claim_C8_witness :
    mapFind? ([] : List (String × String)) rowGhost.orgName = none ∧
      processRow errEnv [] 0 (initState []) rowGhost =
        some { initState [] with errStrings :=
          (initState []).errStrings ++ [errOrgNotFound rowGhost.orgName] } :=
  ⟨rfl,
    claim_C8_dedup_only_row_errors.2 errEnv [] 0 (initState []) rowGhost
      rfl⟩

end Krow
